import Mathlib

/-!
# Verification of the BidWin response-lifecycle controllers

Shallow embedding of `src/app/page.tsx`: the Generation, Audit and Vault
controllers, their submit handlers, and the pure classification-taxonomy
functions.  JavaScript `number` is modelled as `ℚ`, optional/possibly-absent
fields as `Option`, and the transport boundary (the `callAIAgent` promise)
as an explicit outcome value: either a resolved `{success, response?, error?}`
record or a thrown exception (which is an `Error` carrying a message, or a
non-`Error` value).
-/

set_option autoImplicit false
set_option linter.unnecessarySeqFocus false

namespace BidWin

/-! ## Data model (from the TypeScript interfaces, lines 44-87) -/

/-- `Citation` (page.tsx lines 44-47). -/
structure Citation where
  source_text : String
  relevance : String
deriving Repr, DecidableEq

/-- The value stored by `setResponse` in `GeneratorView`.  The cast
`result.response as unknown as BidGeneratorResponse` is unchecked, so every
field of the stored result may be absent or of the wrong shape; `none`
models an absent (or non-string / non-array) field. -/
structure RawGenResult where
  answer : Option String
  status : Option String
  citations : Option (List Citation)
  warning : Option String
deriving Repr, DecidableEq

/-- The raw payload `result.response` seen by `handleGenerate`: its `result`
field may itself be absent (`undefined`), modelled as `none`. -/
structure RawBidResponse where
  result : Option RawGenResult
deriving Repr, DecidableEq

/-- `SentenceAnalysis` (page.tsx lines 65-71).  `status` and `risk_level`
arrive from the external agent as arbitrary strings; the enumerations in the
TypeScript types are not enforced at runtime, so both are plain `String`. -/
structure SentenceAnalysis where
  sentence : String
  status : String
  risk_level : String
  explanation : String
  vault_reference : String
deriving Repr, DecidableEq

/-- The value stored by `setResponse` in `AuditorView`; same unchecked-cast
situation as `RawGenResult`. -/
structure RawAuditResult where
  compliance_score : Option ℚ
  total_sentences : Option ℚ
  analysis : Option (List SentenceAnalysis)
  summary : Option String
deriving Repr, DecidableEq

/-- The raw payload `result.response` seen by `handleAudit`. -/
structure RawAuditResponse where
  result : Option RawAuditResult
deriving Repr, DecidableEq

/-- Outcome of one `await callAIAgent(...)` call, as observed by the caller:
either the promise resolves to `{success, response?, error?}` (`ok`; a falsy
`response` — `undefined`/`null` — is `none`), or it throws (`exn`), with
`isError` recording whether the thrown value is an `instanceof Error` and
`message` its message (meaningless when `isError = false`). -/
inductive TransportOutcome (ρ : Type) where
  | ok (success : Bool) (response : Option ρ) (error : Option String)
  | exn (isError : Bool) (message : String)
deriving Repr, DecidableEq

/-- JavaScript `String.prototype.trim()`: drop leading and trailing
whitespace.  (Executable embedding over the character list.) -/
def jsTrim (s : String) : String :=
  ⟨(((s.data.dropWhile Char.isWhitespace).reverse.dropWhile Char.isWhitespace).reverse)⟩

/-- JavaScript `e || d` for an optional string `e`: the default is taken when
`e` is absent or the empty string (the only falsy string). -/
def jsOrDefault (e : Option String) (d : String) : String :=
  match e with
  | some s => if s = "" then d else s
  | none => d

/-! ## Generation controller (`GeneratorView`, page.tsx lines 138-175) -/

/-- The `useState` cells of `GeneratorView` that `handleGenerate` reads or
writes (`copied` is copy-affordance mechanics, out of scope). -/
structure GenState where
  question : String
  loading : Bool
  response : Option RawGenResult
deriving Repr, DecidableEq

/-- The synthetic result built in the `else` branch of `handleGenerate`
(lines 158-163): `{answer:'', status:'missing_info', citations:[],
warning: result.error || 'Failed to generate answer'}`. -/
def genFallback (error : Option String) : RawGenResult :=
  { answer := some ""
    status := some "missing_info"
    citations := some []
    warning := some (jsOrDefault error "Failed to generate answer") }

/-- The synthetic result built in the `catch` branch (lines 166-171):
`warning: error instanceof Error ? error.message : 'Network error'`. -/
def genExnFallback (isError : Bool) (message : String) : RawGenResult :=
  { answer := some ""
    status := some "missing_info"
    citations := some []
    warning := some (if isError then message else "Network error") }

/-- `handleGenerate` (lines 144-175) as a function from the pre-call state
and the transport outcome to the post-call state, paired with whether an
outbound `callAIAgent` call was made.  Faithful control flow: the only guard
is `if (!question.trim()) return`; then `setLoading(true)`,
`setResponse(null)`, the call, the `if (result.success && result.response)`
branch storing `agentResponse.result` verbatim (unchecked cast), the `else`
and `catch` fallbacks, and `finally setLoading(false)`. -/
def handleGenerate (s : GenState) (t : TransportOutcome RawBidResponse) :
    GenState × Bool :=
  if jsTrim s.question = "" then (s, false)
  else
    match t with
    | .ok true (some r) _ =>
        ({ s with loading := false, response := r.result }, true)
    | .ok true none error =>
        ({ s with loading := false, response := some (genFallback error) }, true)
    | .ok false _ error =>
        ({ s with loading := false, response := some (genFallback error) }, true)
    | .exn isError message =>
        ({ s with loading := false, response := some (genExnFallback isError message) }, true)

/-- The submit control's condition `disabled={loading || !question.trim()}`
(line 209). -/
def generateButtonDisabled (s : GenState) : Bool :=
  s.loading || jsTrim s.question == ""

/-- Formalisation of the Response Validator required-field checks the spec
describes for the Generation shape (spec section 4.2): `result.answer` a
string, `result.status` one of the two enumerated values, `result.citations`
an array.  Stated from the spec's words, for comparison with what
`handleGenerate` actually does; `src/app/page.tsx` contains no such checks. -/
def specGenRequiredFieldsOk (r : RawGenResult) : Bool :=
  r.answer.isSome
    && (r.status == some "success" || r.status == some "missing_info")
    && r.citations.isSome

/-! ## Audit controller (`AuditorView`, page.tsx lines 320-346) -/

/-- The `useState` cells of `AuditorView`. -/
structure AuditState where
  draft : String
  loading : Bool
  response : Option RawAuditResult
deriving Repr, DecidableEq

/-- `handleAudit` (lines 325-346): pre-call state and transport outcome to
post-call state, whether a transport call was made, and the list of
`console.error` diagnostics emitted (tag paired with the logged value).
`setResponse(null)` runs before the call, so on the failure branches —
which only log — the stored response ends up `none`. -/
def handleAudit (s : AuditState) (t : TransportOutcome RawAuditResponse) :
    AuditState × Bool × List (String × Option String) :=
  if jsTrim s.draft = "" then (s, false, [])
  else
    match t with
    | .ok true (some r) _ =>
        ({ s with loading := false, response := r.result }, true, [])
    | .ok true none error =>
        ({ s with loading := false, response := none }, true,
          [("Audit failed:", error)])
    | .ok false _ error =>
        ({ s with loading := false, response := none }, true,
          [("Audit failed:", error)])
    | .exn _ message =>
        ({ s with loading := false, response := none }, true,
          [("Audit error:", some message)])

/-! ## Classification taxonomy (page.tsx lines 348-376 and 444-449) -/

/-- `getScoreColor` (lines 348-352). -/
def getScoreColor (score : ℚ) : String :=
  if score > 80 then "bg-green-500"
  else if score ≥ 50 then "bg-yellow-500"
  else "bg-red-500"

/-- `getScoreTextColor` (lines 354-358). -/
def getScoreTextColor (score : ℚ) : String :=
  if score > 80 then "text-green-900"
  else if score ≥ 50 then "text-yellow-900"
  else "text-red-900"

/-- `getRiskBadgeColor` (lines 360-367); the `switch` over an arbitrary
string with a `default` arm. -/
def getRiskBadgeColor (riskLevel : String) : String :=
  if riskLevel = "safe" then "bg-green-100 text-green-800 border-green-200"
  else if riskLevel = "warning" then "bg-yellow-100 text-yellow-800 border-yellow-200"
  else if riskLevel = "danger" then "bg-red-100 text-red-800 border-red-200"
  else "bg-slate-100 text-slate-800 border-slate-200"

/-- The three icon components `getStatusIcon` can return. -/
inductive StatusIcon where
  | checkCircle
  | alertTriangle
  | xCircle
deriving Repr, DecidableEq

/-- `getStatusIcon` (lines 369-376); the `default` arm returns `null`,
modelled as `none`. -/
def getStatusIcon (status : String) : Option StatusIcon :=
  if status = "VERIFIED" then some StatusIcon.checkCircle
  else if status = "UNKNOWN" then some StatusIcon.alertTriangle
  else if status = "CONTRADICTION" then some StatusIcon.xCircle
  else none

/-- The per-sentence container class chosen in `AuditorView`
(lines 445-449): nested ternary `safe ? green : warning ? yellow : red`,
so everything that is neither `safe` nor `warning` gets the red (danger)
container. -/
def analysisContainerClass (riskLevel : String) : String :=
  if riskLevel = "safe" then "bg-green-50 border-green-200"
  else if riskLevel = "warning" then "bg-yellow-50 border-yellow-200"
  else "bg-red-50 border-red-200"

/-! ## Vault content manager (`VaultView`, page.tsx lines 501-528) -/

/-- The `useState` cells of `VaultView` that `handleSave` touches. -/
structure VaultState where
  content : String
  saving : Bool
  saveMessage : String
deriving Repr, DecidableEq

/-- `handleSave` (lines 511-528): final state after the handler runs to
completion, paired with whether the save (the `setSaving(true)`, simulated
delay, success-message sequence) was performed.  The empty-content branch
sets the validation message and returns before touching `saving`. -/
def handleSave (s : VaultState) : VaultState × Bool :=
  if jsTrim s.content = "" then
    ({ s with saveMessage := "Please enter content to save" }, false)
  else
    ({ s with saving := false, saveMessage := "Knowledge Vault content saved and indexed successfully!" },
      true)

/-! ## Theorems -/

/-- C1: score banding is a pure total function of the numeric
`compliance_score` with exact asymmetric boundaries: for every score,
`score > 80` gives the good (green) band, `50 ≤ score ≤ 80` the moderate
(yellow) band — so exactly 80 is moderate, not good — and `score < 50` the
poor (red) band, with no gap or overlap; in particular band 81 is good,
band 80 and band 50 are moderate, band 49 is poor.  Both `getScoreColor`
and `getScoreTextColor` implement the same banding. -/
theorem score_banding_exact_asymmetric_boundaries :
    (∀ s : ℚ, (getScoreColor s = "bg-green-500" ↔ 80 < s)
      ∧ (getScoreColor s = "bg-yellow-500" ↔ 50 ≤ s ∧ s ≤ 80)
      ∧ (getScoreColor s = "bg-red-500" ↔ s < 50))
    ∧ (∀ s : ℚ, (getScoreTextColor s = "text-green-900" ↔ 80 < s)
      ∧ (getScoreTextColor s = "text-yellow-900" ↔ 50 ≤ s ∧ s ≤ 80)
      ∧ (getScoreTextColor s = "text-red-900" ↔ s < 50))
    ∧ getScoreColor 81 = "bg-green-500"
    ∧ getScoreColor 80 = "bg-yellow-500"
    ∧ getScoreColor 50 = "bg-yellow-500"
    ∧ getScoreColor 49 = "bg-red-500" := by
  refine ⟨fun s => ?_, fun s => ?_, by decide, by decide, by decide, by decide⟩
  · unfold getScoreColor
    split_ifs with h1 h2 <;> refine ⟨?_, ?_, ?_⟩ <;> simp_all <;> linarith
  · unfold getScoreTextColor
    split_ifs with h1 h2 <;> refine ⟨?_, ?_, ?_⟩ <;> simp_all <;> linarith

/-- C2 counterexample: a thrown `Error` whose `message` is the empty string
is a transport failure, yet the stored warning is the empty string — not
non-empty as the claim requires (`error instanceof Error ? error.message :
'Network error'` passes an empty message through verbatim). -/
theorem gen_exception_empty_message_yields_empty_warning :
    (handleGenerate ⟨"q", false, none⟩ (.exn true "")).1.response
      = some { answer := some "", status := some "missing_info",
               citations := some [], warning := some "" } := by
  decide

/-- C2 amended: for every generation submit whose transport call fails, the
controller stores a result with status `missing_info`, empty answer and
empty citations; when the success flag is false the warning is the
transport's error message if non-empty and otherwise the default
`"Failed to generate answer"` (hence always non-empty); when the call throws,
the warning is the thrown `Error`'s message verbatim — possibly empty — or
`"Network error"` for a non-`Error` exception. -/
theorem gen_transport_failure_normalized (s : GenState)
    (resp : Option RawBidResponse) (e : Option String) (isErr : Bool)
    (msg : String) (hq : jsTrim s.question ≠ "") :
    ((handleGenerate s (.ok false resp e)).1.response
        = some { answer := some "", status := some "missing_info",
                 citations := some [],
                 warning := some (jsOrDefault e "Failed to generate answer") })
    ∧ jsOrDefault e "Failed to generate answer" ≠ ""
    ∧ ((handleGenerate s (.exn isErr msg)).1.response
        = some { answer := some "", status := some "missing_info",
                 citations := some [],
                 warning := some (if isErr then msg else "Network error") })
    ∧ (handleGenerate s (.ok false resp e)).1.loading = false
    ∧ (handleGenerate s (.exn isErr msg)).1.loading = false := by
  refine ⟨?_, ?_, ?_, ?_, ?_⟩
  · simp [handleGenerate, hq, genFallback]
  · cases e with
    | none => decide
    | some m =>
        by_cases hm : m = "" <;> simp [jsOrDefault, hm]
  · simp [handleGenerate, hq, genExnFallback]
  · simp [handleGenerate, hq]
  · simp [handleGenerate, hq]

/-- C2 witness: the amended theorem applied at a concrete failing call. -/
theorem gen_transport_failure_normalized_witness :
    jsTrim "q" ≠ ""
    ∧ (handleGenerate ⟨"q", false, none⟩ (.ok false none (some "boom"))).1.response
        = some { answer := some "", status := some "missing_info",
                 citations := some [],
                 warning := some (jsOrDefault (some "boom") "Failed to generate answer") } :=
  ⟨by decide,
   (gen_transport_failure_normalized ⟨"q", false, none⟩ none (some "boom")
      true "m" (by decide)).1⟩

/-- C3 counterexample: a payload that fails the spec's Generation
required-field checks (its status is the unrecognized `"bogus"`) arriving
with a successful transport is stored verbatim by the controller — not
replaced by the synthetic fallback — because the code casts the payload
without any validation. -/
theorem gen_malformed_payload_stored_verbatim :
    ((handleGenerate ⟨"q", false, none⟩
        (.ok true (some ⟨some ⟨some "", some "bogus", some [], none⟩⟩) none)).1.response
      = some ⟨some "", some "bogus", some [], none⟩)
    ∧ specGenRequiredFieldsOk ⟨some "", some "bogus", some [], none⟩ = false
    ∧ (⟨some "", some "bogus", some [], none⟩ : RawGenResult) ≠ genFallback none := by
  refine ⟨by decide, by decide, by decide⟩

/-- C3 amended: when the transport call succeeds with a present payload, the
controller stores `response.result` verbatim, with no required-field checks
of any kind; the synthetic fallback arises only from a failed success flag,
an absent payload, or an exception. -/
theorem gen_success_payload_stored_verbatim (s : GenState) (r : RawBidResponse)
    (e : Option String) (hq : jsTrim s.question ≠ "") :
    (handleGenerate s (.ok true (some r) e)).1.response = r.result
    ∧ (handleGenerate s (.ok true (some r) e)).2 = true := by
  constructor <;> simp [handleGenerate, hq]

/-- C3 witness: the amended theorem applied at a concrete malformed payload. -/
theorem gen_success_payload_stored_verbatim_witness :
    (handleGenerate ⟨"q", false, none⟩
        (.ok true (some ⟨some ⟨none, some "bogus", none, none⟩⟩) none)).1.response
      = some ⟨none, some "bogus", none, none⟩ :=
  (gen_success_payload_stored_verbatim ⟨"q", false, none⟩
      ⟨some ⟨none, some "bogus", none, none⟩⟩ none (by decide)).1

/-- C4 counterexample: invoking the submit handler while a request is in
flight (`loading = true`) with a non-empty question is not a no-op — the
handler contains no lifecycle-state guard, so it issues another transport
call and overwrites the stored response. -/
theorem gen_submit_while_inflight_calls_transport :
    ((handleGenerate ⟨"q", true, none⟩ (.ok false none none)).2 = true)
    ∧ ((handleGenerate ⟨"q", true, none⟩ (.ok false none none)).1.response
        = some (genFallback none)) := by
  refine ⟨by decide, by decide⟩

/-- C4 amended: at-most-one-request-in-flight is ensured only by the
disabled submit control (`disabled={loading || !question.trim()}`); the
submit handler itself checks only the trimmed-empty precondition and issues
a transport call regardless of the in-flight flag. -/
theorem gen_inflight_guard_is_disabled_control_only (s : GenState)
    (t : TransportOutcome RawBidResponse) (hq : jsTrim s.question ≠ "") :
    (handleGenerate s t).2 = true
    ∧ (s.loading = true → generateButtonDisabled s = true) := by
  constructor
  · rcases t with ⟨success, resp, e⟩ | ⟨ie, m⟩
    · cases success <;> cases resp <;> simp [handleGenerate, hq]
    · simp [handleGenerate, hq]
  · intro h
    simp [generateButtonDisabled, h]

/-- C4 witness: the amended theorem applied while in flight. -/
theorem gen_inflight_guard_is_disabled_control_only_witness :
    (handleGenerate ⟨"q", true, none⟩ (.ok true none none)).2 = true
    ∧ (GenState.loading ⟨"q", true, none⟩ = true
        → generateButtonDisabled ⟨"q", true, none⟩ = true) :=
  gen_inflight_guard_is_disabled_control_only ⟨"q", true, none⟩
    (.ok true none none) (by decide)

/-- C5 counterexample: a failed audit submit does not leave the stored
`AuditResult` unchanged from before the submit — `setResponse(null)` runs at
submit start, so a previously displayed result is cleared. -/
theorem audit_failed_submit_clears_prior_result :
    (handleAudit ⟨"d", false, some ⟨some 90, some 1, some [], some "ok"⟩⟩
        (.ok false none (some "boom"))).1.response
      ≠ (⟨"d", false, some ⟨some 90, some 1, some [], some "ok"⟩⟩ : AuditState).response := by
  decide

/-- C5 amended: for every audit submit whose transport call fails or throws,
the controller ends with no stored result (`none` — the prior result having
been cleared at submit start), the failure is recorded only as a
`console.error` diagnostic, and no synthesized partial result is produced. -/
theorem audit_transport_failure_logged_no_result (s : AuditState)
    (resp : Option RawAuditResponse) (e : Option String) (isErr : Bool)
    (msg : String) (hd : jsTrim s.draft ≠ "") :
    ((handleAudit s (.ok false resp e)).1.response = none
      ∧ (handleAudit s (.ok false resp e)).2.2 = [("Audit failed:", e)]
      ∧ (handleAudit s (.ok false resp e)).1.loading = false)
    ∧ ((handleAudit s (.ok true none e)).1.response = none
      ∧ (handleAudit s (.ok true none e)).2.2 = [("Audit failed:", e)])
    ∧ ((handleAudit s (.exn isErr msg)).1.response = none
      ∧ (handleAudit s (.exn isErr msg)).2.2 = [("Audit error:", some msg)]
      ∧ (handleAudit s (.exn isErr msg)).1.loading = false) := by
  rcases resp with _ | r <;>
    refine ⟨⟨?_, ?_, ?_⟩, ⟨?_, ?_⟩, ⟨?_, ?_, ?_⟩⟩ <;> simp [handleAudit, hd]

/-- C5 witness: the amended theorem applied at a concrete failing audit. -/
theorem audit_transport_failure_logged_no_result_witness :
    (handleAudit ⟨"d", false, none⟩ (.ok false none (some "boom"))).1.response = none
    ∧ (handleAudit ⟨"d", false, none⟩ (.ok false none (some "boom"))).2.2
        = [("Audit failed:", some "boom")] :=
  ⟨(audit_transport_failure_logged_no_result ⟨"d", false, none⟩ none
      (some "boom") true "m" (by decide)).1.1,
   (audit_transport_failure_logged_no_result ⟨"d", false, none⟩ none
      (some "boom") true "m" (by decide)).1.2.1⟩

/-- C6: for every input whose trimmed form is empty, the Generation and
Audit submit handlers perform no transport call and leave the whole
controller state unchanged (prior result intact, not loading). -/
theorem empty_trimmed_submit_is_noop (g : GenState) (a : AuditState)
    (tg : TransportOutcome RawBidResponse) (ta : TransportOutcome RawAuditResponse)
    (hg : jsTrim g.question = "") (ha : jsTrim a.draft = "") :
    handleGenerate g tg = (g, false) ∧ handleAudit a ta = (a, false, []) := by
  constructor <;> simp [handleGenerate, handleAudit, hg, ha]

/-- C6 witness: whitespace-only question and empty draft, with prior state
left exactly as it was. -/
theorem empty_trimmed_submit_is_noop_witness :
    handleGenerate ⟨"  ", false, some (genFallback none)⟩ (.ok true none none)
      = (⟨"  ", false, some (genFallback none)⟩, false)
    ∧ handleAudit ⟨"", false, none⟩ (.exn true "x") = (⟨"", false, none⟩, false, []) :=
  empty_trimmed_submit_is_noop ⟨"  ", false, some (genFallback none)⟩
    ⟨"", false, none⟩ (.ok true none none) (.exn true "x") (by decide) (by decide)

/-- C7: the risk-badge and status-icon mappings are total functions on
arbitrary strings: `safe`/`warning`/`danger` map 1:1 to three pairwise
distinct badge categories, any other string maps to the distinct neutral
category; `VERIFIED`/`UNKNOWN`/`CONTRADICTION` map 1:1 to the three icons,
any other string maps to no icon (`none`), never an error. -/
theorem risk_badge_and_status_icon_taxonomy (s t : String)
    (hs1 : s ≠ "safe") (hs2 : s ≠ "warning") (hs3 : s ≠ "danger")
    (ht1 : t ≠ "VERIFIED") (ht2 : t ≠ "UNKNOWN") (ht3 : t ≠ "CONTRADICTION") :
    getRiskBadgeColor "safe" = "bg-green-100 text-green-800 border-green-200"
    ∧ getRiskBadgeColor "warning" = "bg-yellow-100 text-yellow-800 border-yellow-200"
    ∧ getRiskBadgeColor "danger" = "bg-red-100 text-red-800 border-red-200"
    ∧ getRiskBadgeColor s = "bg-slate-100 text-slate-800 border-slate-200"
    ∧ getRiskBadgeColor "safe" ≠ getRiskBadgeColor "warning"
    ∧ getRiskBadgeColor "safe" ≠ getRiskBadgeColor "danger"
    ∧ getRiskBadgeColor "warning" ≠ getRiskBadgeColor "danger"
    ∧ getRiskBadgeColor s ≠ getRiskBadgeColor "safe"
    ∧ getRiskBadgeColor s ≠ getRiskBadgeColor "warning"
    ∧ getRiskBadgeColor s ≠ getRiskBadgeColor "danger"
    ∧ getStatusIcon "VERIFIED" = some StatusIcon.checkCircle
    ∧ getStatusIcon "UNKNOWN" = some StatusIcon.alertTriangle
    ∧ getStatusIcon "CONTRADICTION" = some StatusIcon.xCircle
    ∧ getStatusIcon t = none := by
  have hs : getRiskBadgeColor s = "bg-slate-100 text-slate-800 border-slate-200" := by
    unfold getRiskBadgeColor
    split_ifs <;> simp_all
  have ht : getStatusIcon t = none := by
    unfold getStatusIcon
    split_ifs <;> simp_all
  refine ⟨by decide, by decide, by decide, hs, by decide, by decide, by decide,
    ?_, ?_, ?_, by decide, by decide, by decide, ht⟩ <;> rw [hs] <;> decide

/-- C7 witness: the taxonomy theorem applied at a concrete unrecognized
string. -/
theorem risk_badge_and_status_icon_taxonomy_witness :
    getRiskBadgeColor "other" = "bg-slate-100 text-slate-800 border-slate-200"
    ∧ getStatusIcon "other" = none :=
  ⟨(risk_badge_and_status_icon_taxonomy "other" "other" (by decide) (by decide)
      (by decide) (by decide) (by decide) (by decide)).2.2.2.1,
   (risk_badge_and_status_icon_taxonomy "other" "other" (by decide) (by decide)
      (by decide) (by decide) (by decide)
      (by decide)).2.2.2.2.2.2.2.2.2.2.2.2.2⟩

/-- C8: for every vault buffer whose trimmed content is empty, the save
handler never transitions to `Saving`, performs no save side effect, and
sets the message `"Please enter content to save"`; everything else in the
state is unchanged. -/
theorem vault_save_empty_content_noop (s : VaultState)
    (h : jsTrim s.content = "") :
    handleSave s = ({ s with saveMessage := "Please enter content to save" }, false) := by
  simp [handleSave, h]

/-- C8 witness: saving with a whitespace-only buffer. -/
theorem vault_save_empty_content_noop_witness :
    handleSave ⟨"  ", false, ""⟩
      = (⟨"  ", false, "Please enter content to save"⟩, false) :=
  vault_save_empty_content_noop ⟨"  ", false, ""⟩ (by decide)

/-- C9: when the transport reports success but the payload is absent
(`undefined`/`null`, i.e. falsy), the controller behaves exactly like a
transport failure: it stores the synthetic result with status
`missing_info`, empty answer, empty citations, and warning equal to the
transport error when present and non-empty, otherwise
`"Failed to generate answer"`; the warning is never empty on this path, and
a success flag alone never yields a stored answer. -/
theorem gen_success_without_payload_is_failure (s : GenState)
    (e : Option String) (hq : jsTrim s.question ≠ "") :
    ((handleGenerate s (.ok true none e)).1.response
        = some { answer := some "", status := some "missing_info",
                 citations := some [],
                 warning := some (jsOrDefault e "Failed to generate answer") })
    ∧ (∀ m : String, e = some m → m ≠ ""
        → jsOrDefault e "Failed to generate answer" = m)
    ∧ (e = none → jsOrDefault e "Failed to generate answer" = "Failed to generate answer")
    ∧ jsOrDefault e "Failed to generate answer" ≠ "" := by
  refine ⟨?_, ?_, ?_, ?_⟩
  · simp [handleGenerate, hq, genFallback]
  · rintro m rfl hm
    simp [jsOrDefault, hm]
  · rintro rfl
    rfl
  · cases e with
    | none => decide
    | some m => by_cases hm : m = "" <;> simp [jsOrDefault, hm]

/-- C9 witness: success flag true with absent payload and no error message. -/
theorem gen_success_without_payload_is_failure_witness :
    (handleGenerate ⟨"q", false, none⟩ (.ok true none none)).1.response
      = some { answer := some "", status := some "missing_info",
               citations := some [],
               warning := some (jsOrDefault none "Failed to generate answer") } :=
  (gen_success_without_payload_is_failure ⟨"q", false, none⟩ none (by decide)).1

/-- C10: the per-sentence container classification is total with a danger
default: `safe` gets the safe container, `warning` the warning container,
and every other string — `danger` and any unrecognized value alike — the
danger container; so an unrecognized risk level gets the danger-styled
container even though the badge mapping gives it the neutral category. -/
theorem container_class_danger_default (s : String)
    (h1 : s ≠ "safe") (h2 : s ≠ "warning") (h3 : s ≠ "danger") :
    analysisContainerClass "safe" = "bg-green-50 border-green-200"
    ∧ analysisContainerClass "warning" = "bg-yellow-50 border-yellow-200"
    ∧ analysisContainerClass "danger" = "bg-red-50 border-red-200"
    ∧ analysisContainerClass s = "bg-red-50 border-red-200"
    ∧ getRiskBadgeColor s = "bg-slate-100 text-slate-800 border-slate-200" := by
  have hc : analysisContainerClass s = "bg-red-50 border-red-200" := by
    unfold analysisContainerClass
    split_ifs <;> simp_all
  have hb : getRiskBadgeColor s = "bg-slate-100 text-slate-800 border-slate-200" := by
    unfold getRiskBadgeColor
    split_ifs <;> simp_all
  exact ⟨by decide, by decide, by decide, hc, hb⟩

/-- C10 witness: an unrecognized risk level gets the danger container and
the neutral badge. -/
theorem container_class_danger_default_witness :
    analysisContainerClass "bogus" = "bg-red-50 border-red-200"
    ∧ getRiskBadgeColor "bogus" = "bg-slate-100 text-slate-800 border-slate-200" :=
  ⟨(container_class_danger_default "bogus" (by decide) (by decide) (by decide)).2.2.2.1,
   (container_class_danger_default "bogus" (by decide) (by decide) (by decide)).2.2.2.2⟩

end BidWin
